import Mathlib

/-!
Verification development for the `project-researcher` repository
(`agent.py`, `config.py`).

The Python source is shallowly embedded below:

* `slugify`, `get_topic_dir` — topic-to-workspace mapping (`agent.py`,
  lines 143–157).  Python strings are modelled as `String`/`List Char`;
  the regular-expression character classes `\w` and `\s` (Unicode mode)
  are modelled exactly for code points below `U+0100` (ASCII and
  Latin-1), where Python's tables are: `\s` = `09–0D`, `1C–1F`, `20`,
  `85`, `A0`; `\w` = ASCII alphanumerics, `_`, and the Latin-1 word
  characters `AA B2 B3 B5 B9 BA BC–BE C0–D6 D8–F6 F8–FF`; `str.lower`
  maps `41–5A` and `C0–DE` (except `D7`) up by `0x20`.  Code points
  `≥ U+0100` are conservatively modelled as word characters that are
  not whitespace and are fixed by `lower` (Python's `\w` covers all
  Unicode letters and digits there; exotic punctuation ≥ U+0100 is out
  of scope of every statement proved here).
* `load_prompt`, `load_domain_prompt`, `build_system_prompt` — prompt
  assembly (`agent.py` 120–140).  The filesystem of template files is a
  partial map from file names to contents, and the (possibly
  non-terminating) recursion of `load_domain_prompt` is given an
  explicit fuel parameter: `none` means the recursion did not finish
  within the given fuel.
* `ToolProgressTracker` (`agent.py` 60–113) — state machine with
  explicit wall-clock instants (`Nat`, seconds) instead of
  `time.time()`; each method returns the new state together with the
  list of printed lines.  Python's truthiness tests
  (`if self.current_tool and self.start_time`) are modelled exactly:
  an empty tool name or a zero start time is falsy.  `_format_duration`
  receives a whole number of seconds (the float `f"{x:.0f}"` / `//` /
  `%` operations agree with `Nat` arithmetic on integral values).
* the per-operation `ToolUseBlock` dispatch of `research`, `follow_up`,
  `research_parallel` and `synthesize` (`agent.py` 285–310, 396–411,
  481–510, 576–589), with `block.input` modelled as an association
  list and `pathlib.Path(p).name` modelled for POSIX paths (empty and
  `"."` components dropped).
* `detect_domain` (`agent.py` 160–193) — the received message stream is
  a list of tagged events, consumed in order.
-/

/-! ### Character classes of Python's `re` module (Unicode mode) and `str.lower` -/

/-- Python `\s` on the code point `n` (exact below `U+0100`; code points
`≥ U+0100` are treated as non-space, see the module docstring). -/
def pyIsSpaceN (n : Nat) : Bool :=
  decide ((0x09 ≤ n ∧ n ≤ 0x0D) ∨ (0x1C ≤ n ∧ n ≤ 0x1F) ∨ n = 0x20 ∨ n = 0x85 ∨ n = 0xA0)

/-- Python `\w` on the code point `n` (exact below `U+0100`; code points
`≥ U+0100` are treated as word characters, see the module docstring). -/
def pyIsWordCharN (n : Nat) : Bool :=
  decide ((0x30 ≤ n ∧ n ≤ 0x39) ∨ (0x41 ≤ n ∧ n ≤ 0x5A) ∨ (0x61 ≤ n ∧ n ≤ 0x7A) ∨ n = 0x5F ∨
    n = 0xAA ∨ n = 0xB2 ∨ n = 0xB3 ∨ n = 0xB5 ∨ n = 0xB9 ∨ n = 0xBA ∨
    (0xBC ≤ n ∧ n ≤ 0xBE) ∨ (0xC0 ≤ n ∧ n ≤ 0xD6) ∨ (0xD8 ≤ n ∧ n ≤ 0xF6) ∨
    (0xF8 ≤ n ∧ n ≤ 0xFF) ∨ 0x100 ≤ n)

/-- Code points that Python's `str.lower` shifts up by `0x20`
(exact below `U+0100`). -/
def pyLowerCondN (n : Nat) : Bool :=
  decide ((0x41 ≤ n ∧ n ≤ 0x5A) ∨ (0xC0 ≤ n ∧ n ≤ 0xDE ∧ n ≠ 0xD7))

/-- Python's `str.lower`, code-point level. -/
def pyToLowerN (n : Nat) : Nat :=
  if pyLowerCondN n then n + 0x20 else n

/-- Python `\s` on a character. -/
def pyIsSpace (c : Char) : Bool := pyIsSpaceN c.toNat

/-- Python `\w` on a character. -/
def pyIsWordChar (c : Char) : Bool := pyIsWordCharN c.toNat

/-- Python's `str.lower` on a character. -/
def pyToLower (c : Char) : Char :=
  if pyLowerCondN c.toNat then Char.ofNat (c.toNat + 0x20) else c

/-! ### `slugify` (agent.py lines 143–148)

```python
def slugify(text: str) -> str:
    text = text.lower().strip()
    text = re.sub(r"[^\w\s-]", "", text)
    text = re.sub(r"[\s_]+", "-", text)
    return text[:50]
```
-/

/-- A character matched by `[\s_]`, the class collapsed to `-`. -/
def isSpaceOrUnd (c : Char) : Bool := pyIsSpace c || c == '_'

/-- A character kept by `re.sub(r"[^\w\s-]", "", ·)`. -/
def keepChar (c : Char) : Bool := pyIsWordChar c || pyIsSpace c || c == '-'

/-- Python's `str.strip` on a character list: drop `\s` characters from
both ends. -/
def pyStripL (l : List Char) : List Char :=
  ((l.dropWhile pyIsSpace).reverse.dropWhile pyIsSpace).reverse

/-- One pass of `re.sub(r"[\s_]+", "-", ·)`: each maximal run of
whitespace/underscore characters becomes a single `-`.  The `Bool`
argument records whether the previous character belonged to the run
currently being replaced. -/
def collapseAux : Bool → List Char → List Char
  | _, [] => []
  | prevRun, c :: rest =>
    if isSpaceOrUnd c then
      (if prevRun then [] else ['-']) ++ collapseAux true rest
    else
      c :: collapseAux false rest

/-- `re.sub(r"[\s_]+", "-", ·)` on a character list. -/
def collapseRuns (l : List Char) : List Char := collapseAux false l

/-- `slugify` on a character list: lower-case, strip, drop characters
outside `[\w\s-]`, collapse `[\s_]+` runs to `-`, truncate to 50. -/
def slugifyL (l : List Char) : List Char :=
  (collapseRuns ((pyStripL (l.map pyToLower)).filter keepChar)).take 50

/-- `slugify` from `agent.py`. -/
def slugify (s : String) : String := ⟨slugifyL s.data⟩

/-- The output alphabet claimed by the spec: `[a-z0-9-]`, code-point level. -/
def isSlugCharN (n : Nat) : Bool :=
  decide ((0x61 ≤ n ∧ n ≤ 0x7A) ∨ (0x30 ≤ n ∧ n ≤ 0x39) ∨ n = 0x2D)

/-- The output alphabet claimed by the spec: `[a-z0-9-]`. -/
def isSlugChar (c : Char) : Bool := isSlugCharN c.toNat

/-! ### Workspace paths (config.py lines 6–11, agent.py lines 151–157, 323–330)

`config.py`:
```python
PROJECT_ROOT = Path(__file__).parent
RESEARCH_DIR = PROJECT_ROOT / "output"
TOPICS_DIR = RESEARCH_DIR / "topics"
```
A path is a list of components relative to the project root; the
filesystem is the list of directories that exist.  `pathlib`'s `/`
drops an empty right-hand operand (`p / "" == p`), which `pathJoin`
mirrors. -/

/-- `TOPICS_DIR` from `config.py`, relative to the project root. -/
def TOPICS_DIR : List String := ["output", "topics"]

/-- `pathlib` path join: an empty component is dropped. -/
def pathJoin (p : List String) (seg : String) : List String :=
  if seg = "" then p else p ++ [seg]

/-- The set of directories that exist, as a list of paths. -/
abbrev DirState := List (List String)

/-- `Path.mkdir(parents=True, exist_ok=True)`: the directory and all its
ancestors exist afterwards (re-adding an existing directory is harmless,
membership is what matters). -/
def mkdirParents (fs : DirState) (p : List String) : DirState :=
  List.append fs p.inits

/-- `Path.mkdir(exist_ok=True)` (no parents). -/
def mkdirPlain (fs : DirState) (p : List String) : DirState :=
  List.append fs [p]

/-- `get_topic_dir` from `agent.py`:
```python
def get_topic_dir(topic: str) -> Path:
    slug = slugify(topic)
    topic_dir = TOPICS_DIR / slug
    topic_dir.mkdir(parents=True, exist_ok=True)
    (topic_dir / "notes").mkdir(exist_ok=True)
    return topic_dir
```
Returns the topic directory and the filesystem after the two `mkdir`s. -/
def getTopicDir (fs : DirState) (topic : String) : List String × DirState :=
  let slug := slugify topic
  let topicDir := pathJoin TOPICS_DIR slug
  let fs1 := mkdirParents fs topicDir
  let fs2 := mkdirPlain fs1 (pathJoin topicDir "notes")
  (topicDir, fs2)

/-- Outcome of the guard at the top of `follow_up` (`agent.py` 323–330):
whether the not-found message was printed (and the operation returned
early), whether control reached session acquisition, and the resulting
filesystem. -/
structure FollowUpOutcome where
  notFoundPrinted : Bool
  sessionAcquired : Bool
  fs : DirState

/-- The opening of `follow_up` from `agent.py`:
```python
async def follow_up(topic: str) -> None:
    topic_dir = get_topic_dir(topic)
    if not topic_dir.exists():
        print(f"No existing research found for topic: {topic}")
        print("Run initial research first.")
        return
    ...  # proceeds to ClaudeSDKClient session acquisition
```
-/
def followUpStart (fs : DirState) (topic : String) : FollowUpOutcome :=
  let r := getTopicDir fs topic
  if r.1 ∈ r.2 then
    { notFoundPrinted := false, sessionAcquired := true, fs := r.2 }
  else
    { notFoundPrinted := true, sessionAcquired := false, fs := r.2 }

/-! ### Prompt templates (agent.py lines 120–140)

```python
def load_prompt(filename: str) -> str:
    prompt_file = PROMPTS_DIR / filename
    if prompt_file.exists():
        return prompt_file.read_text()
    return ""

def load_domain_prompt(domain: str) -> str:
    domain_file = DOMAINS_DIR / f"{domain}.md"
    if domain_file.exists():
        return domain_file.read_text()
    return load_domain_prompt("general")

def build_system_prompt(domain: str) -> str:
    core = load_prompt("core.md")
    domain_prompt = load_domain_prompt(domain)
    return f"{core}\n\n---\n\n{domain_prompt}"
```
`load_domain_prompt` has no base case: when the requested file and
`general.md` are both absent it calls itself forever.  The embedding
makes the recursion depth explicit with a fuel parameter; `none` means
the call has not returned within the given fuel (so `= none` for every
fuel means the Python call never returns). -/

/-- The template files on disk: contents of `PROMPTS_DIR` and of
`DOMAINS_DIR`, each a partial map from file name to file text. -/
structure TemplateFS where
  prompts : String → Option String
  domains : String → Option String

/-- `load_prompt` from `agent.py`. -/
def loadPrompt (fs : TemplateFS) (filename : String) : String :=
  (fs.prompts filename).getD ""

/-- `load_domain_prompt` from `agent.py`, with explicit fuel. -/
def loadDomainPromptF (fs : TemplateFS) : Nat → String → Option String
  | 0, _ => none
  | fuel + 1, domain =>
    match fs.domains (domain ++ ".md") with
    | some txt => some txt
    | none => loadDomainPromptF fs fuel "general"

/-- `build_system_prompt` from `agent.py`, with explicit fuel inherited
from `load_domain_prompt`. -/
def buildSystemPromptF (fs : TemplateFS) (fuel : Nat) (domain : String) : Option String :=
  (loadDomainPromptF fs fuel domain).map
    (fun domainPrompt => loadPrompt fs "core.md" ++ "\n\n---\n\n" ++ domainPrompt)

/-- A template directory with no files at all. -/
def noTemplates : TemplateFS := ⟨fun _ => none, fun _ => none⟩

/-- A template directory whose only domain file is `general.md`. -/
def onlyGeneralFS : TemplateFS :=
  ⟨fun _ => none, fun name => if name = "general.md" then some "GENERAL-TEMPLATE" else none⟩

/-! ### `ToolProgressTracker` (agent.py lines 60–113)

```python
class ToolProgressTracker:
    SLOW_THRESHOLD = 30

    def _format_duration(self, seconds: float) -> str:
        if seconds < 60:
            return f"{seconds:.0f}s"
        else:
            mins = int(seconds // 60)
            secs = int(seconds % 60)
            return f"{mins}m {secs}s"

    def start(self, tool_name: str, detail: str = "") -> None:
        self.complete()
        self.current_tool = tool_name
        self.current_detail = detail
        self.start_time = time.time()
        detail_str = f": {detail}" if detail else ""
        print(f"[{self._timestamp()}] {tool_name}{detail_str}...")

    def complete(self) -> None:
        if self.current_tool and self.start_time:
            duration = time.time() - self.start_time
            duration_str = self._format_duration(duration)
            print(f"[{self._timestamp()}] {self.current_tool} complete ({duration_str})")
        self.current_tool = None
        self.current_detail = ""
        self.start_time = None
```
Wall-clock instants are whole seconds (`Nat`); every method takes the
current instant and returns the new tracker state together with the
list of lines it printed. -/

/-- The mutable state of a `ToolProgressTracker` instance. -/
structure Tracker where
  currentTool : Option String
  currentDetail : String
  startTime : Option Nat
deriving DecidableEq

/-- A freshly constructed tracker (`ToolProgressTracker.__init__`). -/
def idleTracker : Tracker := ⟨none, "", none⟩

/-- Python truthiness of `self.current_tool` (an `Optional[str]`):
`None` and `""` are falsy. -/
def optStrTruthy : Option String → Bool
  | none => false
  | some s => s != ""

/-- Python truthiness of `self.start_time` (an `Optional[float]`):
`None` and `0` are falsy. -/
def optNatTruthy : Option Nat → Bool
  | none => false
  | some n => n != 0

/-- Two-digit zero padding used by `%H`/`%M`/`%S`. -/
def pad2 (n : Nat) : String := if n < 10 then "0" ++ toString n else toString n

/-- `time.strftime("%H:%M:%S")` at the instant `now` (seconds), up to
the local timezone offset, which no claim depends on. -/
def fmtTime (now : Nat) : String :=
  pad2 (now / 3600 % 24) ++ ":" ++ pad2 (now / 60 % 60) ++ ":" ++ pad2 (now % 60)

/-- `ToolProgressTracker._format_duration` on a whole number of seconds. -/
def formatDuration (seconds : Nat) : String :=
  if seconds < 60 then
    toString seconds ++ "s"
  else
    toString (seconds / 60) ++ "m " ++ toString (seconds % 60) ++ "s"

/-- `ToolProgressTracker.complete` at instant `now`: the new state and
the printed lines. -/
def trackerComplete (tr : Tracker) (now : Nat) : Tracker × List String :=
  let out :=
    if optStrTruthy tr.currentTool && optNatTruthy tr.startTime then
      ["[" ++ fmtTime now ++ "] " ++ tr.currentTool.getD "" ++ " complete (" ++
        formatDuration (now - tr.startTime.getD 0) ++ ")"]
    else []
  (idleTracker, out)

/-- The line printed by `ToolProgressTracker.start`. -/
def startLine (now : Nat) (toolName detail : String) : String :=
  "[" ++ fmtTime now ++ "] " ++ toolName ++
    (if detail != "" then ": " ++ detail else "") ++ "..."

/-- `ToolProgressTracker.start` at instant `now`: completes the previous
record first, then opens and announces the new one. -/
def trackerStart (tr : Tracker) (now : Nat) (toolName detail : String) :
    Tracker × List String :=
  let completed := trackerComplete tr now
  (⟨some toolName, detail, some now⟩, completed.2 ++ [startLine now toolName detail])

/-! ### Tool-use dispatch in the four receive loops
(agent.py lines 285–310, 396–411, 481–510, 576–589) -/

/-- A `ToolUseBlock`: tool name plus structured input, the latter as an
association list (`block.input` is a JSON object). -/
structure ToolUse where
  name : String
  input : List (String × String)

/-- `block.input.get(key, "")`. -/
def getInput (input : List (String × String)) (key : String) : String :=
  match input.find? (fun kv => kv.1 == key) with
  | some kv => kv.2
  | none => ""

/-- The fetch-URL truncation appearing identically in `research`,
`follow_up` and `research_parallel`:
```python
display_url = url if len(url) < 60 else url[:57] + "..."
```
-/
def displayUrl (url : String) : String :=
  if url.data.length < 60 then url else ⟨url.data.take 57⟩ ++ "..."

/-- Split a character list on `/`, accumulating the current component in
reverse; mirrors `str.split("/")`. -/
def splitSlashAux : List Char → List Char → List String
  | acc, [] => [⟨acc.reverse⟩]
  | acc, c :: rest =>
    if c = '/' then ⟨acc.reverse⟩ :: splitSlashAux [] rest
    else splitSlashAux (c :: acc) rest

/-- `pathlib.Path(p).name` for a POSIX path: the last component after
dropping empty and `"."` components, or `""` if none remain. -/
def pathName (p : String) : String :=
  (((splitSlashAux [] p.data).filter (fun seg => seg != "" && seg != ".")).getLast?).getD ""

/-- The `ToolUseBlock` branch of `research`'s receive loop
(`agent.py` 292–309): `WebSearch`, `WebFetch`, `Write` and `Read` are
dispatched to `tracker.start`; any other tool name falls through the
`elif` chain and touches neither the tracker nor the console. -/
def researchDispatch (tr : Tracker) (now : Nat) (b : ToolUse) : Tracker × List String :=
  if b.name = "WebSearch" then trackerStart tr now "Search" (getInput b.input "query")
  else if b.name = "WebFetch" then trackerStart tr now "Fetch" (displayUrl (getInput b.input "url"))
  else if b.name = "Write" then trackerStart tr now "Save" (pathName (getInput b.input "file_path"))
  else if b.name = "Read" then trackerStart tr now "Read" (pathName (getInput b.input "file_path"))
  else (tr, [])

/-- The `ToolUseBlock` branch of `follow_up`'s inner receive loop
(`agent.py` 399–410): only `WebSearch`, `WebFetch` and `Write` are
dispatched. -/
def followUpDispatch (tr : Tracker) (now : Nat) (b : ToolUse) : Tracker × List String :=
  if b.name = "WebSearch" then trackerStart tr now "Search" (getInput b.input "query")
  else if b.name = "WebFetch" then trackerStart tr now "Fetch" (displayUrl (getInput b.input "url"))
  else if b.name = "Write" then trackerStart tr now "Save" (pathName (getInput b.input "file_path"))
  else (tr, [])

/-- The `ToolUseBlock` branch of `research_parallel`'s receive loop
(`agent.py` 488–509): `WebSearch`, `WebFetch`, `Write`, `Read`, `Task`
and `TodoWrite` are dispatched. -/
def parallelDispatch (tr : Tracker) (now : Nat) (b : ToolUse) : Tracker × List String :=
  if b.name = "WebSearch" then trackerStart tr now "Search" (getInput b.input "query")
  else if b.name = "WebFetch" then trackerStart tr now "Fetch" (displayUrl (getInput b.input "url"))
  else if b.name = "Write" then trackerStart tr now "Save" (pathName (getInput b.input "file_path"))
  else if b.name = "Read" then trackerStart tr now "Read" (pathName (getInput b.input "file_path"))
  else if b.name = "Task" then trackerStart tr now "Task" (getInput b.input "description")
  else if b.name = "TodoWrite" then trackerStart tr now "TodoWrite" "updating progress"
  else (tr, [])

/-- The `ToolUseBlock` branch of `synthesize`'s receive loop
(`agent.py` 581–588): only `Write` and `Read` are dispatched. -/
def synthesizeDispatch (tr : Tracker) (now : Nat) (b : ToolUse) : Tracker × List String :=
  if b.name = "Write" then trackerStart tr now "Save" (pathName (getInput b.input "file_path"))
  else if b.name = "Read" then trackerStart tr now "Read" (pathName (getInput b.input "file_path"))
  else (tr, [])

/-! ### `detect_domain` (agent.py lines 160–193, config.py line 18) -/

/-- `DOMAINS` from `config.py`. -/
def DOMAINS : List String := ["tech", "policy", "thought-leadership", "general"]

/-- Python's `str.strip` on a string. -/
def pyStrip (s : String) : String := ⟨pyStripL s.data⟩

/-- Python's `str.lower` on a string. -/
def pyLowerStr (s : String) : String := ⟨s.data.map pyToLower⟩

/-- A content block of an incoming message. -/
inductive SBlock
  | text (s : String)
  | toolUse (b : ToolUse)

/-- An event of the agent's message stream: `AssistantMessage` with its
content blocks, or `ResultMessage`. -/
inductive SMessage
  | assistant (content : List SBlock)
  | result

/-- The inner block loop of `detect_domain`: the first `TextBlock` whose
stripped, lower-cased text is a member of `DOMAINS` yields that domain. -/
def findDomainInBlocks : List SBlock → Option String
  | [] => none
  | SBlock.text s :: rest =>
    let domain := pyLowerStr (pyStrip s)
    if domain ∈ DOMAINS then some domain else findDomainInBlocks rest
  | SBlock.toolUse _ :: rest => findDomainInBlocks rest

/-- The message loop of `detect_domain`, applied to the received stream
in arrival order: an `AssistantMessage` may return a recognized domain,
a `ResultMessage` breaks the loop, and falling off the end returns
`"general"`. -/
def detectDomainFrom : List SMessage → String
  | [] => "general"
  | SMessage.assistant blocks :: rest =>
    match findDomainInBlocks blocks with
    | some domain => domain
    | none => detectDomainFrom rest
  | SMessage.result :: _ => "general"

/-! ### Helper lemmas about the character pipeline -/

/-- Characters are determined by their code points. -/
theorem char_eq_of_toNat_eq {a b : Char} (h : a.toNat = b.toNat) : a = b := by
  rw [← Char.ofNat_toNat a, ← Char.ofNat_toNat b, h]

/-- For code points below the surrogate range, `Char.ofNat` round-trips. -/
theorem toNat_ofNat_of_lt {n : Nat} (h : n < 55296) : (Char.ofNat n).toNat = n := by
  rw [Char.ofNat, dif_pos (Or.inl h)]
  rfl

/-- `pyToLower` computes `pyToLowerN` on code points. -/
theorem toNat_pyToLower (c : Char) : (pyToLower c).toNat = pyToLowerN c.toNat := by
  unfold pyToLower pyToLowerN
  by_cases h : pyLowerCondN c.toNat = true
  · rw [if_pos h, if_pos h]
    have hle : c.toNat ≤ 0xDE := by
      simp only [pyLowerCondN, decide_eq_true_eq] at h
      omega
    exact toNat_ofNat_of_lt (by omega)
  · rw [if_neg h, if_neg h]

/-- Lower-casing is idempotent at the code-point level. -/
theorem pyToLowerN_idem (n : Nat) : pyToLowerN (pyToLowerN n) = pyToLowerN n := by
  simp only [pyToLowerN, pyLowerCondN, decide_eq_true_eq]
  split
  · next h => rw [if_neg (by omega)]
  · rfl

/-- Lower-casing is idempotent on characters. -/
theorem pyToLower_idem (c : Char) : pyToLower (pyToLower c) = pyToLower c := by
  apply char_eq_of_toNat_eq
  rw [toNat_pyToLower, toNat_pyToLower, pyToLowerN_idem]

/-- `dropWhile` is the identity when no element satisfies the predicate. -/
theorem dropWhile_eq_self_of_all {p : Char → Bool} {l : List Char}
    (h : ∀ c ∈ l, p c = false) : l.dropWhile p = l := by
  cases l with
  | nil => rfl
  | cons a rest =>
    rw [List.dropWhile_cons, if_neg]
    simp [h a (List.mem_cons_self a rest)]

/-- Stripping never invents characters. -/
theorem mem_pyStripL {c : Char} {l : List Char} (h : c ∈ pyStripL l) : c ∈ l := by
  unfold pyStripL at h
  rw [List.mem_reverse] at h
  have h2 : c ∈ (l.dropWhile pyIsSpace).reverse :=
    (List.dropWhile_sublist pyIsSpace).mem h
  rw [List.mem_reverse] at h2
  exact (List.dropWhile_sublist pyIsSpace).mem h2

/-- Stripping a list with no whitespace is the identity. -/
theorem pyStripL_eq_self {l : List Char} (h : ∀ c ∈ l, pyIsSpace c = false) :
    pyStripL l = l := by
  unfold pyStripL
  rw [dropWhile_eq_self_of_all h,
    dropWhile_eq_self_of_all (fun c hc => h c (List.mem_reverse.mp hc)),
    List.reverse_reverse]

/-- Every character produced by run collapsing is either the introduced
`-` or an original character outside the collapsed class. -/
theorem mem_collapseAux {c : Char} : ∀ {l : List Char} {b : Bool},
    c ∈ collapseAux b l → c = '-' ∨ (c ∈ l ∧ isSpaceOrUnd c = false) := by
  intro l
  induction l with
  | nil => intro b h; simp [collapseAux] at h
  | cons a rest ih =>
    intro b h
    simp only [collapseAux] at h
    split at h
    · rw [List.mem_append] at h
      rcases h with h | h
      · left
        split at h <;> simp_all
      · rcases ih h with h | ⟨hm, hs⟩
        · exact Or.inl h
        · exact Or.inr ⟨List.mem_cons_of_mem a hm, hs⟩
    · next ha =>
      rcases List.mem_cons.mp h with rfl | h
      · exact Or.inr ⟨List.mem_cons_self c rest, Bool.not_eq_true _ ▸ ha⟩
      · rcases ih h with h | ⟨hm, hs⟩
        · exact Or.inl h
        · exact Or.inr ⟨List.mem_cons_of_mem a hm, hs⟩

/-- Run collapsing is the identity when nothing belongs to the class. -/
theorem collapseAux_eq_self {l : List Char} (h : ∀ c ∈ l, isSpaceOrUnd c = false) :
    ∀ b, collapseAux b l = l := by
  induction l with
  | nil => intro b; rfl
  | cons a rest ih =>
    intro b
    have ha := h a (List.mem_cons_self a rest)
    simp only [collapseAux, ha]
    rw [ih (fun c hc => h c (List.mem_cons_of_mem a hc)) false]
    simp

/-- Mapping a function that fixes every element is the identity. -/
theorem map_eq_self_of_fixed {f : Char → Char} {m : List Char}
    (h : ∀ c ∈ m, f c = c) : m.map f = m := by
  induction m with
  | nil => rfl
  | cons a rest ih =>
    rw [List.map_cons, h a (List.mem_cons_self a rest),
      ih (fun c hc => h c (List.mem_cons_of_mem a hc))]

/-- Structure of every character of a slug: the separator `-`, or a
lower-cased input word character that is neither whitespace nor `_`. -/
theorem mem_slugifyL {c : Char} {l : List Char} (h : c ∈ slugifyL l) :
    c = '-' ∨ (c ∈ l.map pyToLower ∧ pyIsWordChar c = true ∧
      pyIsSpace c = false ∧ c ≠ '_') := by
  by_cases hc : c = '-'
  · exact Or.inl hc
  · right
    unfold slugifyL collapseRuns at h
    have h1 := List.mem_of_mem_take h
    rcases mem_collapseAux h1 with h2 | ⟨h2, h3⟩
    · exact absurd h2 hc
    · rw [List.mem_filter] at h2
      obtain ⟨h4, h5⟩ := h2
      have h6 := mem_pyStripL h4
      simp only [isSpaceOrUnd, Bool.or_eq_false_iff, beq_eq_false_iff_ne] at h3
      simp only [keepChar, Bool.or_eq_true, beq_iff_eq] at h5
      rcases h5 with (hw | hs) | hd
      · exact ⟨h6, hw, h3.1, h3.2⟩
      · rw [h3.1] at hs; exact absurd hs (by simp)
      · exact absurd hd hc

/-- Every character of a slug is fixed by lower-casing. -/
theorem pyToLower_fixed_of_mem_slugifyL {c : Char} {l : List Char}
    (h : c ∈ slugifyL l) : pyToLower c = c := by
  rcases mem_slugifyL h with rfl | ⟨hm, -, -, -⟩
  · decide
  · rw [List.mem_map] at hm
    obtain ⟨a, -, rfl⟩ := hm
    exact pyToLower_idem a

/-- A slug has length at most 50. -/
theorem slugifyL_length_le (l : List Char) : (slugifyL l).length ≤ 50 :=
  List.length_take_le 50 _

/-- `slugifyL` is idempotent. -/
theorem slugifyL_idem (l : List Char) : slugifyL (slugifyL l) = slugifyL l := by
  have hsu : ∀ c ∈ slugifyL l, isSpaceOrUnd c = false := by
    intro c hc
    rcases mem_slugifyL hc with rfl | ⟨-, -, hs, hu⟩
    · decide
    · simp [isSpaceOrUnd, hs, hu]
  have hspace : ∀ c ∈ slugifyL l, pyIsSpace c = false := by
    intro c hc
    rcases mem_slugifyL hc with rfl | ⟨-, -, hs, -⟩
    · decide
    · exact hs
  have hkeep : ∀ c ∈ slugifyL l, keepChar c = true := by
    intro c hc
    rcases mem_slugifyL hc with rfl | ⟨-, hw, -, -⟩
    · decide
    · simp [keepChar, hw]
  have hmap : (slugifyL l).map pyToLower = slugifyL l :=
    map_eq_self_of_fixed (fun c hc => pyToLower_fixed_of_mem_slugifyL hc)
  show (collapseRuns ((pyStripL ((slugifyL l).map pyToLower)).filter keepChar)).take 50
      = slugifyL l
  rw [hmap, pyStripL_eq_self hspace, List.filter_eq_self.mpr hkeep]
  unfold collapseRuns
  rw [collapseAux_eq_self hsu false, List.take_of_length_le (slugifyL_length_le l)]

/-- Lower-casing keeps ASCII code points in the ASCII range. -/
theorem pyToLowerN_lt_128 : ∀ n, n < 128 → pyToLowerN n < 128 := by decide

/-- An ASCII word character other than `_` that is fixed by lower-casing
lies in `[a-z0-9]` (hence in the slug alphabet). -/
theorem ascii_slugCharN : ∀ n, n < 128 → pyToLowerN n = n →
    pyIsWordCharN n = true → n ≠ 95 → isSlugCharN n = true := by decide

/-- The topic directory itself is among the directories existing after
`get_topic_dir` (its `mkdir(parents=True, exist_ok=True)` created it). -/
theorem topicDir_mem_getTopicDir (fs : DirState) (topic : String) :
    (getTopicDir fs topic).1 ∈ (getTopicDir fs topic).2 := by
  unfold getTopicDir mkdirParents mkdirPlain
  simp only [List.append_eq, List.mem_append]
  left; right
  exact (List.mem_inits _ _).mpr (List.prefix_refl _)

/-! ### Claims -/

/-- C1: the claim states that `follow` on a topic whose workspace does
not exist prints a not-found message, performs no session acquisition,
and returns without creating the workspace.  The code contradicts its
own error branch: `follow_up` calls `get_topic_dir(topic)` — which
creates the workspace — *before* the `topic_dir.exists()` check, so the
check always succeeds.  On a fresh filesystem with topic
`"nonexistent-topic"`, no not-found message is printed, the session is
acquired, and the workspace directory now exists; the second conjunct
shows the not-found branch is dead for every filesystem and topic. -/
theorem claim_C1_follow_up_not_found_branch_dead :
    ((followUpStart [] "nonexistent-topic").notFoundPrinted = false ∧
      (followUpStart [] "nonexistent-topic").sessionAcquired = true ∧
      pathJoin TOPICS_DIR (slugify "nonexistent-topic") ∈
        (followUpStart [] "nonexistent-topic").fs) ∧
    ∀ (fs : DirState) (topic : String),
      (followUpStart fs topic).notFoundPrinted = false ∧
      (followUpStart fs topic).sessionAcquired = true := by
  refine ⟨⟨by decide, by decide, by decide⟩, ?_⟩
  intro fs topic
  unfold followUpStart
  rw [if_pos (topicDir_mem_getTopicDir fs topic)]
  exact ⟨rfl, rfl⟩

/-- C2: the claim states that `build_system_prompt` always terminates
with a usable prompt — falling back to the default domain's template
when the requested one is absent, and returning the empty string when
the fallback is also absent.  The fallback half is true (third
conjunct: with only `general.md` present, any other domain resolves to
its text after two unfoldings).  But when `general.md` is absent,
`load_domain_prompt` calls `load_domain_prompt("general")` with no base
case: for every recursion depth the call has not returned (first two
conjuncts), i.e. the Python code recurses forever instead of returning
the empty string. -/
theorem claim_C2_load_domain_prompt_no_base_case :
    (∀ fuel domain, loadDomainPromptF noTemplates fuel domain = none) ∧
    (∀ fuel, buildSystemPromptF noTemplates fuel "general" = none) ∧
    (∀ fuel, loadDomainPromptF onlyGeneralFS (fuel + 2) "tech" = some "GENERAL-TEMPLATE") := by
  have h1 : ∀ fuel domain, loadDomainPromptF noTemplates fuel domain = none := by
    intro fuel
    induction fuel with
    | zero => intro d; rfl
    | succ n ih => intro d; simpa [loadDomainPromptF, noTemplates] using ih "general"
  refine ⟨h1, fun fuel => ?_, fun fuel => rfl⟩
  simp [buildSystemPromptF, h1]

/-- C9: slug derivation is pure and idempotent — for every topic
string `t`, `slugify (slugify t) = slugify t`. -/
theorem claim_C9_slugify_idempotent : ∀ s : String, slugify (slugify s) = slugify s := by
  intro s
  exact congrArg String.mk (slugifyL_idem s.data)

/-- C10: a topic consisting only of characters removed by slugification,
such as `"!!!"`, slugifies to the empty string; `get_topic_dir` then
returns the shared `TOPICS_DIR` itself (pathlib drops the empty path
component) and creates a `notes` subdirectory directly under it. -/
theorem claim_C10_empty_slug_collapses_to_topics_root :
    slugify "!!!" = "" ∧
    (getTopicDir [] "!!!").1 = TOPICS_DIR ∧
    (TOPICS_DIR ++ ["notes"]) ∈ (getTopicDir [] "!!!").2 := by
  exact ⟨by decide, by decide, by decide⟩

/-- C7: `_format_duration` renders an elapsed time below 60 seconds as
`"<N>s"` and otherwise as `"<M>m <S>s"` with minutes `N / 60` and
seconds `N % 60`; in particular 45 seconds formats as `"45s"` and 125
seconds as `"2m 5s"`. -/
theorem claim_C7_format_duration :
    formatDuration 45 = "45s" ∧ formatDuration 125 = "2m 5s" ∧
    (∀ n : Nat, n < 60 → formatDuration n = toString n ++ "s") ∧
    (∀ n : Nat, 60 ≤ n →
      formatDuration n = toString (n / 60) ++ "m " ++ toString (n % 60) ++ "s") := by
  refine ⟨by decide, by decide, ?_, ?_⟩
  · intro n h
    unfold formatDuration
    rw [if_pos h]
  · intro n h
    unfold formatDuration
    rw [if_neg (by omega)]

/-- Witness for C7 at the concrete inputs 45 and 125. -/
theorem claim_C7_format_duration_witness :
    ((45 : Nat) < 60 ∧ formatDuration 45 = toString (45 : Nat) ++ "s") ∧
    ((60 : Nat) ≤ 125 ∧
      formatDuration 125 = toString (125 / 60 : Nat) ++ "m " ++ toString (125 % 60 : Nat) ++ "s") :=
  ⟨⟨by decide, claim_C7_format_duration.2.2.1 45 (by decide)⟩,
   ⟨by decide, claim_C7_format_duration.2.2.2 125 (by decide)⟩⟩

/-- C3 (counterexample): as stated over *every* input string, the claim
that `slugify`'s output contains no character outside `[a-z0-9-]` is
false: Python's `\w` (Unicode mode) keeps non-ASCII word characters,
so `slugify "é" = "é"`, whose character `é` is outside `[a-z0-9-]`. -/
theorem claim_C3_counterexample_unicode :
    slugify "é" = "é" ∧ ¬ (∀ c ∈ (slugify "é").data, isSlugChar c = true) := by
  exact ⟨by decide, by decide⟩

/-- C3 (amended): for every input string of ASCII characters, `slugify`
is deterministic, its output contains only characters of `[a-z0-9-]`
(in particular it is lower-case: lower-casing fixes it), and its length
is at most 50. -/
theorem claim_C3_slugify_ascii_wellformed :
    ∀ s : String, (∀ c ∈ s.data, c.toNat < 128) →
      slugify s = slugify s ∧
      (∀ c ∈ (slugify s).data, isSlugChar c = true) ∧
      (slugify s).data.map pyToLower = (slugify s).data ∧
      (slugify s).length ≤ 50 := by
  intro s hascii
  refine ⟨rfl, ?_, ?_, ?_⟩
  · intro c hc
    have hc' : c ∈ slugifyL s.data := hc
    rcases mem_slugifyL hc' with rfl | ⟨hm, hw, -, hu⟩
    · decide
    · rw [List.mem_map] at hm
      obtain ⟨a, ha, rfl⟩ := hm
      have h1 : (pyToLower a).toNat < 128 := by
        rw [toNat_pyToLower]
        exact pyToLowerN_lt_128 a.toNat (hascii a ha)
      have h2 : pyToLowerN (pyToLower a).toNat = (pyToLower a).toNat := by
        rw [toNat_pyToLower]
        exact pyToLowerN_idem a.toNat
      have h3 : (pyToLower a).toNat ≠ 95 := by
        intro hEq
        exact hu (char_eq_of_toNat_eq (by rw [hEq]; rfl))
      exact ascii_slugCharN _ h1 h2 hw h3
  · exact map_eq_self_of_fixed (fun c hc => pyToLower_fixed_of_mem_slugifyL hc)
  · exact slugifyL_length_le s.data

/-- Witness for C3 (amended) at the ASCII topic `"Hello_World 42!"`. -/
theorem claim_C3_slugify_ascii_wellformed_witness :
    (∀ c ∈ ("Hello_World 42!" : String).data, c.toNat < 128) ∧
    (slugify "Hello_World 42!" = slugify "Hello_World 42!" ∧
      (∀ c ∈ (slugify "Hello_World 42!").data, isSlugChar c = true) ∧
      (slugify "Hello_World 42!").data.map pyToLower = (slugify "Hello_World 42!").data ∧
      (slugify "Hello_World 42!").length ≤ 50) :=
  ⟨by decide, claim_C3_slugify_ascii_wellformed "Hello_World 42!" (by decide)⟩

/-- C5: the tracker keeps at most one record open.  `start(A)` followed
by `start(B)` prints the "complete" line for `A` (timestamped and
timed at the second call) before the "start" line for `B`; `complete()`
in the idle state prints nothing and leaves the tracker idle.  The
hypotheses `A ≠ ""` and `t1 ≠ 0` reflect the Python truthiness test
`if self.current_tool and self.start_time:`; every call site passes a
non-empty literal tool name, and `time.time()` is never `0`. -/
theorem claim_C5_tracker_single_open_record :
    (∀ (A dA B dB : String) (t1 t2 : Nat), A ≠ "" → t1 ≠ 0 →
      (trackerStart (trackerStart idleTracker t1 A dA).1 t2 B dB).2 =
        ["[" ++ fmtTime t2 ++ "] " ++ A ++ " complete (" ++ formatDuration (t2 - t1) ++ ")",
          startLine t2 B dB]) ∧
    (∀ t : Nat, trackerComplete idleTracker t = (idleTracker, [])) := by
  constructor
  · intro A dA B dB t1 t2 hA ht
    simp [trackerStart, trackerComplete, optStrTruthy, optNatTruthy, hA, ht]
  · intro t
    rfl

/-- Witness for C5 at `start("Search", "q")` at `t = 5` followed by
`start("Fetch", "u")` at `t = 12`. -/
theorem claim_C5_tracker_single_open_record_witness :
    (("Search" : String) ≠ "" ∧ (5 : Nat) ≠ 0) ∧
    (trackerStart (trackerStart idleTracker 5 "Search" "q").1 12 "Fetch" "u").2 =
      ["[" ++ fmtTime 12 ++ "] " ++ "Search" ++ " complete (" ++ formatDuration (12 - 5) ++ ")",
        startLine 12 "Fetch" "u"] :=
  ⟨⟨by decide, by decide⟩,
    claim_C5_tracker_single_open_record.1 "Search" "q" "Fetch" "u" 5 12 (by decide) (by decide)⟩

/-- A URL of exactly 60 characters. -/
def url60 : String := ⟨List.replicate 60 'a'⟩

/-- A URL of exactly 100 characters. -/
def url100 : String := ⟨List.replicate 100 'a'⟩

/-- C6 (counterexample): the claim says the displayed URL is the URL
itself unless the URL is *longer than* 60 characters, but the code
truncates already at length exactly 60 (`len(url) < 60` is its guard):
a 60-character URL is not displayed as itself. -/
theorem claim_C6_counterexample_len60 :
    url60.data.length = 60 ∧ displayUrl url60 ≠ url60 := by
  exact ⟨by decide, by decide⟩

/-- C6 (amended): the displayed URL detail is the URL itself when its
length is below 60, and for URLs of 60 characters or more it is the
57-character prefix followed by `"..."` — a 60-character string ending
in an ellipsis. -/
theorem claim_C6_display_url :
    ∀ url : String,
      (url.data.length < 60 → displayUrl url = url) ∧
      (60 ≤ url.data.length →
        displayUrl url = ⟨url.data.take 57⟩ ++ "..." ∧
        (displayUrl url).data.length = 60 ∧
        ("..." : String).data <:+ (displayUrl url).data) := by
  intro url
  constructor
  · intro h
    unfold displayUrl
    rw [if_pos h]
  · intro h
    unfold displayUrl
    rw [if_neg (by omega)]
    refine ⟨rfl, ?_, ?_⟩
    · show (url.data.take 57 ++ ("..." : String).data).length = 60
      rw [List.length_append, List.length_take]
      have h3 : ("..." : String).data.length = 3 := by decide
      omega
    · exact ⟨url.data.take 57, rfl⟩

/-- Witness for C6 at the 100-character URL: its display form is a
60-character string ending in an ellipsis. -/
theorem claim_C6_display_url_witness :
    60 ≤ url100.data.length ∧
    (displayUrl url100 = ⟨url100.data.take 57⟩ ++ "..." ∧
      (displayUrl url100).data.length = 60 ∧
      ("..." : String).data <:+ (displayUrl url100).data) :=
  ⟨by decide, (claim_C6_display_url url100).2 (by decide)⟩

/-- C4 (counterexample): the claim says *every* ToolInvocation is
dispatched to the tracker's `start`, with the task description as the
detail for delegated sub-agent work.  In `research`'s receive loop a
`Task` invocation matches no branch of the `elif` chain: the tracker is
left untouched and nothing is printed — whereas an actual dispatch to
`start` would have printed a line (second conjunct). -/
theorem claim_C4_counterexample_task_in_research :
    researchDispatch idleTracker 0 ⟨"Task", [("description", "research angle A")]⟩ =
      (idleTracker, []) ∧
    (trackerStart idleTracker 0 "Task" "research angle A").2 ≠ [] := by
  exact ⟨by decide, by decide⟩

/-- C4 (amended): in each receive loop, a ToolInvocation whose tool name
the loop handles is dispatched to the tracker's `start` with the
tool-specific detail (search query text for `WebSearch`, truncated URL
for `WebFetch`, file base name for `Write`/`Read` where handled, task
description for `Task` and the fixed text `"updating progress"` for
`TodoWrite` in the parallel loop); the handled sets are
`research`: {WebSearch, WebFetch, Write, Read},
`follow_up`: {WebSearch, WebFetch, Write},
`research_parallel`: {WebSearch, WebFetch, Write, Read, Task, TodoWrite},
`synthesize`: {Write, Read}; every other ToolInvocation (e.g. `Glob`,
`Grep`, and `Task`/`Read` in the loops that omit them) is ignored:
no tracker dispatch, no output. -/
theorem claim_C4_dispatch_per_loop :
    (∀ (tr : Tracker) (now : Nat) (inp : List (String × String)),
      researchDispatch tr now ⟨"WebSearch", inp⟩ =
        trackerStart tr now "Search" (getInput inp "query") ∧
      researchDispatch tr now ⟨"WebFetch", inp⟩ =
        trackerStart tr now "Fetch" (displayUrl (getInput inp "url")) ∧
      researchDispatch tr now ⟨"Write", inp⟩ =
        trackerStart tr now "Save" (pathName (getInput inp "file_path")) ∧
      researchDispatch tr now ⟨"Read", inp⟩ =
        trackerStart tr now "Read" (pathName (getInput inp "file_path")) ∧
      ∀ name, name ∉ (["WebSearch", "WebFetch", "Write", "Read"] : List String) →
        researchDispatch tr now ⟨name, inp⟩ = (tr, [])) ∧
    (∀ (tr : Tracker) (now : Nat) (inp : List (String × String)),
      followUpDispatch tr now ⟨"WebSearch", inp⟩ =
        trackerStart tr now "Search" (getInput inp "query") ∧
      followUpDispatch tr now ⟨"WebFetch", inp⟩ =
        trackerStart tr now "Fetch" (displayUrl (getInput inp "url")) ∧
      followUpDispatch tr now ⟨"Write", inp⟩ =
        trackerStart tr now "Save" (pathName (getInput inp "file_path")) ∧
      ∀ name, name ∉ (["WebSearch", "WebFetch", "Write"] : List String) →
        followUpDispatch tr now ⟨name, inp⟩ = (tr, [])) ∧
    (∀ (tr : Tracker) (now : Nat) (inp : List (String × String)),
      parallelDispatch tr now ⟨"WebSearch", inp⟩ =
        trackerStart tr now "Search" (getInput inp "query") ∧
      parallelDispatch tr now ⟨"WebFetch", inp⟩ =
        trackerStart tr now "Fetch" (displayUrl (getInput inp "url")) ∧
      parallelDispatch tr now ⟨"Write", inp⟩ =
        trackerStart tr now "Save" (pathName (getInput inp "file_path")) ∧
      parallelDispatch tr now ⟨"Read", inp⟩ =
        trackerStart tr now "Read" (pathName (getInput inp "file_path")) ∧
      parallelDispatch tr now ⟨"Task", inp⟩ =
        trackerStart tr now "Task" (getInput inp "description") ∧
      parallelDispatch tr now ⟨"TodoWrite", inp⟩ =
        trackerStart tr now "TodoWrite" "updating progress" ∧
      ∀ name,
        name ∉ (["WebSearch", "WebFetch", "Write", "Read", "Task", "TodoWrite"] : List String) →
        parallelDispatch tr now ⟨name, inp⟩ = (tr, [])) ∧
    (∀ (tr : Tracker) (now : Nat) (inp : List (String × String)),
      synthesizeDispatch tr now ⟨"Write", inp⟩ =
        trackerStart tr now "Save" (pathName (getInput inp "file_path")) ∧
      synthesizeDispatch tr now ⟨"Read", inp⟩ =
        trackerStart tr now "Read" (pathName (getInput inp "file_path")) ∧
      ∀ name, name ∉ (["Write", "Read"] : List String) →
        synthesizeDispatch tr now ⟨name, inp⟩ = (tr, [])) := by
  refine ⟨fun tr now inp => ⟨rfl, rfl, rfl, rfl, ?_⟩,
    fun tr now inp => ⟨rfl, rfl, rfl, ?_⟩,
    fun tr now inp => ⟨rfl, rfl, rfl, rfl, rfl, rfl, ?_⟩,
    fun tr now inp => ⟨rfl, rfl, ?_⟩⟩
  all_goals
    intro name h
    simp only [List.mem_cons, List.not_mem_nil, not_or, or_false] at h
  · obtain ⟨h1, h2, h3, h4⟩ := h
    simp [researchDispatch, h1, h2, h3, h4]
  · obtain ⟨h1, h2, h3⟩ := h
    simp [followUpDispatch, h1, h2, h3]
  · obtain ⟨h1, h2, h3, h4, h5, h6⟩ := h
    simp [parallelDispatch, h1, h2, h3, h4, h5, h6]
  · obtain ⟨h1, h2⟩ := h
    simp [synthesizeDispatch, h1, h2]

/-- Witness for C4 (amended), exercising the ignored cases of all four
loops: `Glob` in `research` and `synthesize`, `Read` in `follow_up`,
`Grep` in `research_parallel`. -/
theorem claim_C4_dispatch_per_loop_witness :
    (("Glob" : String) ∉ (["WebSearch", "WebFetch", "Write", "Read"] : List String) ∧
      researchDispatch idleTracker 0 ⟨"Glob", []⟩ = (idleTracker, [])) ∧
    (("Read" : String) ∉ (["WebSearch", "WebFetch", "Write"] : List String) ∧
      followUpDispatch idleTracker 0 ⟨"Read", []⟩ = (idleTracker, [])) ∧
    (("Grep" : String) ∉
        (["WebSearch", "WebFetch", "Write", "Read", "Task", "TodoWrite"] : List String) ∧
      parallelDispatch idleTracker 0 ⟨"Grep", []⟩ = (idleTracker, [])) ∧
    (("Glob" : String) ∉ (["Write", "Read"] : List String) ∧
      synthesizeDispatch idleTracker 0 ⟨"Glob", []⟩ = (idleTracker, [])) :=
  ⟨⟨by decide, (claim_C4_dispatch_per_loop.1 idleTracker 0 []).2.2.2.2 "Glob" (by decide)⟩,
    ⟨by decide, (claim_C4_dispatch_per_loop.2.1 idleTracker 0 []).2.2.2 "Read" (by decide)⟩,
    ⟨by decide,
      (claim_C4_dispatch_per_loop.2.2.1 idleTracker 0 []).2.2.2.2.2.2 "Grep" (by decide)⟩,
    ⟨by decide, (claim_C4_dispatch_per_loop.2.2.2 idleTracker 0 []).2.2 "Glob" (by decide)⟩⟩

/-- C8: domain detection parses the response by exact case-insensitive
match after stripping surrounding whitespace, against the closed set
`DOMAINS`: any response whose stripped, lower-cased text is `"tech"`
yields `"tech"`; the unrecognized response `"sports"` yields
`"general"`; any response outside `DOMAINS` yields `"general"`; and a
missing response (empty stream) yields `"general"`. -/
theorem claim_C8_detect_domain :
    (∀ s : String, pyLowerStr (pyStrip s) = "tech" →
      detectDomainFrom [SMessage.assistant [SBlock.text s]] = "tech") ∧
    detectDomainFrom [SMessage.assistant [SBlock.text "sports"]] = "general" ∧
    (∀ s : String, pyLowerStr (pyStrip s) ∉ DOMAINS →
      detectDomainFrom [SMessage.assistant [SBlock.text s]] = "general") ∧
    detectDomainFrom [] = "general" := by
  refine ⟨?_, by decide, ?_, rfl⟩
  · intro s h
    simp only [detectDomainFrom, findDomainInBlocks, h]
    rw [if_pos (by decide)]
  · intro s h
    simp only [detectDomainFrom, findDomainInBlocks]
    rw [if_neg h]

/-- Witness for C8 at the responses `"  TECH \t"` (a case variant of
`tech` with surrounding whitespace) and `" Sports "`. -/
theorem claim_C8_detect_domain_witness :
    (pyLowerStr (pyStrip "  TECH \t") = "tech" ∧
      detectDomainFrom [SMessage.assistant [SBlock.text "  TECH \t"]] = "tech") ∧
    (pyLowerStr (pyStrip " Sports ") ∉ DOMAINS ∧
      detectDomainFrom [SMessage.assistant [SBlock.text " Sports "]] = "general") :=
  ⟨⟨by decide, claim_C8_detect_domain.1 "  TECH \t" (by decide)⟩,
    ⟨by decide, claim_C8_detect_domain.2.2.1 " Sports " (by decide)⟩⟩
